import Mathlib

/-!
Verification of the SF2 competition runner (cued_sf2_compete).

Shallow embedding of `src/cued_sf2_compete/__init__.py`.

Modelling conventions:
* Python exceptions are an inductive `PyError`; fallible code returns
  `Except PyError α`.
* A submission module is a record of optional attributes (`PyObj`); the
  *behaviour* of its callables (and of the external `vlctest` bit counter
  and `load_mat_img` loader, which are owned by an external library) is
  supplied as functions in an `Env` record.
* Images are flattened pixel matrices, `List ℚ`; `vlc` payloads and
  `header` values are opaque tags (`ℕ` / `Option ℕ`), exactly as the
  harness treats them (it never inspects their structure).
* `np.std` returns a float; rows store its square `rms_sq : ℚ` (the
  variance of the pixel differences), and the reported float is
  `Real.sqrt rms_sq` (definition `rowRmsVal` below), keeping rows
  computable.
* Worker-process isolation (`run_isolated`, `ProcessPoolExecutor`) is
  semantically transparent for results: a worker either returns the value
  or re-raises the exception in the caller (`.result()`), so
  `run_encoder`/`run_decoder` are modelled as the underlying
  `encode_process`/`decode_process` calls.
-/

namespace SF2

/-- Python exceptions distinguished by the harness. -/
inductive PyError where
  | valueError (msg : String)
  | typeError (msg : String)
  | runtimeError (msg : String)
  | systemExit (msg : String)
  | otherError (msg : String)
  deriving DecidableEq, Repr

/-- Is this exception a `ValueError`?  (`except ValueError` in `collect`.) -/
def isValueError : PyError → Bool
  | .valueError _ => true
  | _ => false

/-- A Python object bound to a module attribute: either a function object or
some non-callable value.  The tag keeps distinct objects distinct. -/
inductive PyObj where
  | callable (tag : Nat)
  | notCallable (tag : Nat)
  deriving DecidableEq, Repr

/-- A submission module: the three attribute slots the loader probes.
`none` models a missing attribute (`AttributeError` on access). -/
structure PyModule where
  header_bits : Option PyObj
  encode : Option PyObj
  decode : Option PyObj
  deriving DecidableEq, Repr

/-- The Submission named tuple from the source: the module plus the three
looked-up attribute objects. -/
structure Submission where
  module : PyModule
  header_bits : PyObj
  encode : PyObj
  decode : PyObj
  deriving DecidableEq, Repr

/-- The EncodeOutput named tuple, `(vlc, header, n_header_bits)`.
`vlc` and `header` are opaque; `n_header_bits` is whatever integer the
submission returned (the harness never checks its sign). -/
structure EncodeOutput where
  vlc : Nat
  header : Option Nat
  n_header_bits : Int
  deriving DecidableEq, Repr

/-- Embeds `load(module_name)`: probe the three attributes in order, converting a
missing one into a `RuntimeError` with a distinct message. -/
def load (mod : PyModule) : Except PyError Submission :=
  match mod.header_bits with
  | none => .error (.runtimeError ("No `header_bits` function found"))
  | some hb =>
    match mod.encode with
    | none => .error (.runtimeError ("No `encode` function found"))
    | some enc =>
      match mod.decode with
      | none => .error (.runtimeError ("No `decode` function found"))
      | some dec => .ok ⟨mod, hb, enc, dec⟩

/-- Semantics of the callables of the submission: what `encode`, `header_bits`
and `decode` do when invoked (untrusted code, may raise anything). -/
structure Codec where
  encode : List ℚ → Except PyError (Nat × Option Nat)
  header_bits : Option Nat → Except PyError Int
  decode : Nat → Option Nat → Except PyError (List ℚ)

/-- The harness environment: the submission module, the behaviour of its
callables, the external `vlctest` bit counter, the external `.mat` image
loader, and whether the output directory exists. -/
structure Env where
  mod : PyModule
  codec : Codec
  vlctest : Nat → Except PyError Nat
  load_img : String → List ℚ
  out_dir_exists : Bool

/-- Embeds `encode_process(mod, X)`: re-load the module inside the worker, call
`encode`, then `header_bits` on the resulting header.  No validation of
the returned header bit count is performed. -/
def encode_process (env : Env) (X : List ℚ) : Except PyError EncodeOutput :=
  match load env.mod with
  | .error e => .error e
  | .ok _ =>
    match env.codec.encode X with
    | .error e => .error e
    | .ok (vlc, header) =>
      match env.codec.header_bits header with
      | .error e => .error e
      | .ok h_bits => .ok ⟨vlc, header, h_bits⟩

/-- Embeds `decode_process(mod, x)`: re-load the module inside the worker and call
`decode(x.vlc, x.header)`. -/
def decode_process (env : Env) (x : EncodeOutput) : Except PyError (List ℚ) :=
  match load env.mod with
  | .error e => .error e
  | .ok _ => env.codec.decode x.vlc x.header

/-! ## Image identifier resolution (`collect`, first loop) -/

/-- Python `s.startswith(p)` on code points. -/
def pyStartsWith (s p : String) : Bool := p.data.isPrefixOf s.data

/-- Python `s.endswith(p)` on code points. -/
def pyEndsWith (s p : String) : Bool := p.data.isSuffixOf s.data

/-- Python `s.removeprefix(p)` restricted to the case `s.startswith(p)`
(the only way the source uses it). -/
def stripPre (s p : String) : String := String.mk (s.data.drop p.data.length)

/-- Python `s.removesuffix(p)`. -/
def stripSuf (s p : String) : String :=
  if pyEndsWith s p then String.mk (s.data.take (s.data.length - p.data.length))
  else s

/-- The reserved identifier scheme `cued-sf2://`. -/
def cuedScheme : String := "cued-sf2://"

/-- The fixed matrix-file extension `.mat`. -/
def matExt : String := ".mat"

/-- Location of the bundled sample bank, the images directory next to the
module file (an opaque installation-dependent path). -/
def imagesDir : String := "cued_sf2_compete/images"

/-- Resolve one image identifier to `(fname, display name)`, exactly as the
branch at the top of the first loop of `collect`. -/
def resolveImg (img : String) : String × String :=
  if pyStartsWith img cuedScheme then
    let img' := stripPre img cuedScheme
    (imagesDir ++ "/" ++ img', stripSuf img' matExt)
  else if ¬ pyEndsWith img matExt then
    (img ++ matExt, img)
  else
    (img, img)

/-! ## Pixel arithmetic (`collect`, second loop) -/

/-- Embeds `np.clip(z, 0, 255).astype(np.uint8)` elementwise: clamp to `[0, 255]`
then truncate to an integer (truncation toward zero equals `⌊·⌋` on
non-negative values). -/
def clipPixel (z : ℚ) : ℚ := ((⌊min 255 (max 0 z)⌋ : ℤ) : ℚ)

/-- Elementwise clip of a decoded matrix. -/
def clipMatrix (Z : List ℚ) : List ℚ := Z.map clipPixel

/-- Pixel-value differences `X - Z_actual` (as `np.double`). -/
def diffs (X Za : List ℚ) : List ℚ := List.zipWith (· - ·) X Za

/-- Mean of a list of rationals (`0` on the empty list, as a convention;
the harness only applies it to non-empty pixel arrays). -/
def listMean (d : List ℚ) : ℚ := d.sum / (d.length : ℚ)

/-- The square of `np.std d`: mean squared deviation from the mean. -/
def npStdSq (d : List ℚ) : ℚ := listMean (d.map (fun x => (x - listMean d) ^ 2))

/-- The value `np.std d` itself (a real number). -/
noncomputable def npStd (d : List ℚ) : ℝ := Real.sqrt ((npStdSq d : ℚ) : ℝ)

/-- Modelled from the spec: the *root-mean-square* of a list of pixel
differences (the definition of RMS error in the spec), to be compared with
the `np.std` used by the source. -/
noncomputable def specRms (d : List ℚ) : ℝ :=
  Real.sqrt ((listMean (d.map (fun x => x ^ 2)) : ℚ) : ℝ)

/-! ## `collect` -/

/-- One evaluated row of the `data` list of `collect`.  The field `rms_sq`
stores the square of the recorded `np.std` value (see `rowRmsVal`). -/
structure Row where
  name : String
  X : List ℚ
  enc : EncodeOutput
  Z : List ℚ
  Z_actual : List ℚ
  rms_sq : ℚ
  vlc_bits : Option Nat
  total_bits : Option Int
  vlc_error : Option PyError
  deriving DecidableEq, Repr

/-- The float recorded in the rms entry of the row. -/
noncomputable def rowRmsVal (r : Row) : ℝ := Real.sqrt ((r.rms_sq : ℚ) : ℝ)

/-- First loop of `collect`: resolve, load and freeze each image, then run
the encoder through the isolated executor.  Encode exceptions are NOT
caught: they propagate out (aborting the whole call). -/
def collectEncode (env : Env) : List String → Except PyError (List (String × List ℚ × EncodeOutput))
  | [] => .ok []
  | img :: rest =>
    match encode_process env (env.load_img (resolveImg img).1) with
    | .error e => .error e
    | .ok enc =>
      match collectEncode env rest with
      | .error e => .error e
      | .ok tail => .ok (((resolveImg img).2, env.load_img (resolveImg img).1, enc) :: tail)

/-- Body of the second loop of `collect` for one row: decode, clip, compute
the error statistic, then bit-account the payload, catching ONLY
`ValueError` from `vlctest`. -/
def finishRow (env : Env) (name : String) (X : List ℚ) (enc : EncodeOutput) :
    Except PyError Row :=
    match decode_process env enc with
    | .error e => .error e
    | .ok Z =>
      match env.vlctest enc.vlc with
      | .ok n =>
          .ok ⟨name, X, enc, Z, clipMatrix Z, npStdSq (diffs X (clipMatrix Z)),
               some n, some ((n : ℤ) + enc.n_header_bits), none⟩
      | .error (.valueError m) =>
          .ok ⟨name, X, enc, Z, clipMatrix Z, npStdSq (diffs X (clipMatrix Z)),
               none, none, some (.valueError m)⟩
      | .error e => .error e

/-- Second loop of `collect`. -/
def collectFinish (env : Env) : List (String × List ℚ × EncodeOutput) → Except PyError (List Row)
  | [] => .ok []
  | (name, X, enc) :: rest =>
    match finishRow env name X enc with
    | .error e => .error e
    | .ok r =>
      match collectFinish env rest with
      | .error e => .error e
      | .ok tail => .ok (r :: tail)

/-- Embeds `collect(mod, imgs)`: all encodes, then all decodes and bit accounting. -/
def collect (env : Env) (imgs : List String) : Except PyError (List Row) :=
  match collectEncode env imgs with
  | .error e => .error e
  | .ok part => collectFinish env part

/-! ## `main`: per-image verdicts, summary JSON, overall verdict -/

/-- Python `int(x)` applied to a value that is either an `int` or `None`;
`int(None)` raises `TypeError`. -/
def pyInt (x : Option Int) : Except PyError Int :=
  match x with
  | some v => .ok v
  | none => .error (.typeError ("int argument must be a number, not NoneType"))

/-- The per-image `this_fail` flag computed in `main`: fail when the
payload bit count is missing, or when the total is strictly over the
40960-bit budget. -/
def this_fail (r : Row) : Bool :=
  (r.vlc_bits.isNone) ||
    (match r.total_bits with
     | some t => decide (40960 < t)
     | none => false)

/-- One image entry of `summary.json` (`rms_sq` stores the square of the
reported rms float, cf. `Row.rms_sq`). -/
structure ImgJson where
  name : String
  rms_sq : ℚ
  fail : Bool
  total_bits : Int
  deriving DecidableEq, Repr

/-- Embeds the inner loop of `main` over one group of rows: build the JSON entry for
each row (note the call of `int` on the total-bits entry, which raises
`TypeError` when the total is `None`), and fold the overall `fail` flag, updated only
for the required group. -/
def processRows (required : Bool) : List Row → Bool → Except PyError (List ImgJson × Bool)
  | [], acc => .ok ([], acc)
  | r :: rest, acc =>
    match pyInt r.total_bits with
    | .error e => .error e
    | .ok t =>
      match processRows required rest (if required then acc || this_fail r else acc) with
      | .error e => .error e
      | .ok (tail, final) => .ok (⟨r.name, r.rms_sq, this_fail r, t⟩ :: tail, final)

/-- The contents of `summary.json`. -/
structure Summary where
  required : List ImgJson
  extra : List ImgJson
  failed : Bool
  deriving DecidableEq, Repr

/-- Result of a completed `main` run: the written summary, plus whether the
final `SystemExit("Some images failed the tests")` is raised. -/
structure MainResult where
  summary : Summary
  exit_failure : Bool
  deriving DecidableEq, Repr

/-- Embeds `main(module_name, imgs, req_imgs, out_dir)`: load the submission,
check the output directory, collect both image groups, process the
required group then the extra group (threading the overall `fail` flag,
updated only on required rows), and emit the summary. -/
def main (env : Env) (req_imgs imgs : List String) : Except PyError MainResult :=
  match load env.mod with
  | .error e => .error e
  | .ok _ =>
    if env.out_dir_exists = false then
      .error (.systemExit ("Cannot find output directory"))
    else
      match collect env req_imgs with
      | .error e => .error e
      | .ok req_data =>
        match collect env imgs with
        | .error e => .error e
        | .ok extra_data =>
          match processRows true req_data false with
          | .error e => .error e
          | .ok (reqJson, fail₁) =>
            match processRows false extra_data fail₁ with
            | .error e => .error e
            | .ok (extraJson, fail) => .ok ⟨⟨reqJson, extraJson, fail⟩, fail⟩

/-! ## Accounting invariant -/

/-- The relation `collect` establishes between the payload bit count of a
row and its total bit count. -/
def RowAccounted (r : Row) : Prop :=
  (r.vlc_bits = none → r.total_bits = none) ∧
  (∀ n, r.vlc_bits = some n → r.total_bits = some ((n : ℤ) + r.enc.n_header_bits))

/-! ## Concrete test fixtures

Small fully-concrete environments used to exhibit behaviours of the
embedded harness on explicit inputs. -/

/-- A module exposing all three capabilities as function objects. -/
def goodModule : PyModule := ⟨some (.callable 0), some (.callable 1), some (.callable 2)⟩

/-- Placeholder codec behaviour (never reached in the runs that use it). -/
def anyCodec : Codec := ⟨fun _ => .ok (0, none), fun _ => .ok 0, fun _ _ => .ok []⟩

/-- A codec whose `encode` raises on the image `[1]` and succeeds on any
other image. -/
def c1Codec : Codec :=
  { encode := fun X => if X = [1] then .error (.runtimeError ("boom")) else .ok (7, none)
    header_bits := fun _ => .ok 0
    decode := fun _ _ => .ok [2] }

/-- Run with two images, `bad` (mapped to `[1]`, on which encode raises)
and `good` (mapped to `[2]`). -/
def c1Env : Env :=
  ⟨goodModule, c1Codec, fun _ => .ok 100,
   fun f => if f = "bad.mat" then [1] else [2], true⟩

/-- A codec that encodes successfully... -/
def c2Codec : Codec := ⟨fun _ => .ok (5, none), fun _ => .ok 10, fun _ _ => .ok [0]⟩

/-- Environment whose encoded payload makes the external `vlctest` raise `ValueError`. -/
def c2Env : Env :=
  ⟨goodModule, c2Codec, fun _ => .error (.valueError ("bad vlc")), fun _ => [0], true⟩

/-- The record `collect c2Env ["imgA"]` produces. -/
def c2row : Row :=
  ⟨"imgA", [0], ⟨5, none, 10⟩, [0], clipMatrix [0],
   npStdSq (diffs [0] (clipMatrix [0])), none, none, some (.valueError ("bad vlc"))⟩

/-- A codec/bit-counter combination whose total lands exactly on the
40960-bit budget. -/
def c3Codec : Codec := ⟨fun _ => .ok (1, none), fun _ => .ok 0, fun _ _ => .ok [0]⟩

/-- Environment whose single image accounts to exactly 40960 bits. -/
def c3Env : Env := ⟨goodModule, c3Codec, fun _ => .ok 40960, fun _ => [0], true⟩

/-- The record `collect c3Env ["a"]` produces: at the boundary. -/
def c3row : Row :=
  ⟨"a", [0], ⟨1, none, 0⟩, [0], clipMatrix [0],
   npStdSq (diffs [0] (clipMatrix [0])), some 40960, some 40960, none⟩

/-- A codec producing payload tag `1` on image `[1]` and `2` otherwise. -/
def c4Codec : Codec :=
  { encode := fun X => if X = [1] then .ok (1, none) else .ok (2, none)
    header_bits := fun _ => .ok 0
    decode := fun _ _ => .ok [0] }

/-- Required image `imgA` (→ 100 bits, passing) and extra image `imgB`
(→ 50000 bits, over budget). -/
def c4Env : Env :=
  ⟨goodModule, c4Codec, fun v => if v = 1 then .ok 100 else .ok 50000,
   fun f => if f = "imgA.mat" then [1] else [9], true⟩

/-- The passing required record of `c4Env`. -/
def c4rowA : Row :=
  ⟨"imgA", [1], ⟨1, none, 0⟩, [0], clipMatrix [0],
   npStdSq (diffs [1] (clipMatrix [0])), some 100, some 100, none⟩

/-- The failing extra record of `c4Env`. -/
def c4rowB : Row :=
  ⟨"imgB", [9], ⟨2, none, 0⟩, [0], clipMatrix [0],
   npStdSq (diffs [9] (clipMatrix [0])), some 50000, some 50000, none⟩

/-- The completed result of `main c4Env ["imgA"] ["imgB"]`. -/
def c4res : MainResult :=
  ⟨⟨[⟨"imgA", npStdSq (diffs [1] (clipMatrix [0])), false, 100⟩],
    [⟨"imgB", npStdSq (diffs [9] (clipMatrix [0])), true, 50000⟩], false⟩, false⟩

/-- A codec that decodes image `[0]` to `[2]`: constant error `-2` at the
single pixel. -/
def c5Codec : Codec := ⟨fun _ => .ok (3, none), fun _ => .ok 0, fun _ _ => .ok [2]⟩

/-- Environment exhibiting a nonzero-mean reconstruction error. -/
def c5Env : Env := ⟨goodModule, c5Codec, fun _ => .ok 10, fun _ => [0], true⟩

/-- The record `collect c5Env ["a"]` produces. -/
def c5row : Row :=
  ⟨"a", [0], ⟨3, none, 0⟩, [2], clipMatrix [2],
   npStdSq (diffs [0] (clipMatrix [2])), some 10, some 10, none⟩

/-- A codec whose `header_bits` declares a negative count. -/
def c7Codec : Codec := ⟨fun _ => .ok (7, none), fun _ => .ok (-5), fun _ _ => .ok [0]⟩

/-- Environment where the submission declares `-5` header bits and the
payload counts 100 bits. -/
def c7Env : Env := ⟨goodModule, c7Codec, fun _ => .ok 100, fun _ => [0], true⟩

/-- The record `collect c7Env ["a"]` produces: the negative header count
is accepted and offsets the total. -/
def c7row : Row :=
  ⟨"a", [0], ⟨7, none, -5⟩, [0], clipMatrix [0],
   npStdSq (diffs [0] (clipMatrix [0])), some 100, some 95, none⟩

/-- A codec whose payload makes the external bit counter raise a
`TypeError` (not a `ValueError`). -/
def c10Codec : Codec := ⟨fun _ => .ok (4, none), fun _ => .ok 0, fun _ _ => .ok [0]⟩

/-- Environment where `vlctest` raises `TypeError`. -/
def c10Env : Env :=
  ⟨goodModule, c10Codec, fun _ => .error (.typeError ("weird")), fun _ => [0], true⟩

/-! ## Helper lemmas -/

theorem finishRow_accounted {env : Env} {name : String} {X : List ℚ} {enc : EncodeOutput}
    {r : Row} (h : finishRow env name X enc = .ok r) : RowAccounted r := by
  unfold finishRow at h
  cases hd : decode_process env enc with
  | error e => rw [hd] at h; exact absurd h (by simp)
  | ok Z =>
    rw [hd] at h
    cases hv : env.vlctest enc.vlc with
    | ok n =>
      rw [hv] at h
      cases h
      exact ⟨by simp, by intro m hm; simp only [Option.some.injEq] at hm; subst hm; rfl⟩
    | error e =>
      rw [hv] at h
      cases e <;> simp only at h <;> first
        | (cases h; exact ⟨fun _ => rfl, by intro m hm; simp at hm⟩)
        | exact absurd h (by simp)

theorem collectFinish_accounted {env : Env} (items : List (String × List ℚ × EncodeOutput))
    {rows : List Row} (h : collectFinish env items = .ok rows) :
    ∀ r ∈ rows, RowAccounted r := by
  induction items generalizing rows with
  | nil =>
    unfold collectFinish at h
    cases h
    intro r hr
    exact absurd hr (by simp)
  | cons item rest ih =>
    obtain ⟨name, X, enc⟩ := item
    unfold collectFinish at h
    cases hf : finishRow env name X enc with
    | error e => rw [hf] at h; exact absurd h (by simp)
    | ok r₀ =>
      rw [hf] at h
      cases ht : collectFinish env rest with
      | error e => rw [ht] at h; exact absurd h (by simp)
      | ok tail =>
        rw [ht] at h
        cases h
        intro r hr
        rcases List.mem_cons.mp hr with hr | hr
        · exact hr ▸ finishRow_accounted hf
        · exact ih ht r hr

theorem collect_accounted {env : Env} {imgs : List String} {rows : List Row}
    (h : collect env imgs = .ok rows) : ∀ r ∈ rows, RowAccounted r := by
  unfold collect at h
  cases he : collectEncode env imgs with
  | error e => rw [he] at h; exact absurd h (by simp)
  | ok part => rw [he] at h; exact collectFinish_accounted part h

/-! ## Claim theorems -/

/-- C3: For every evaluated image record, the per-image fail flag is
true if and only if the payload bit count could not be computed or the
total bit count strictly exceeds the 40960-bit budget; a record with
`total_bits` exactly 40960 is passing and one with 40961 is failing. -/
theorem claim3_fail_flag_iff (env : Env) (imgs : List String) (rows : List Row)
    (hc : collect env imgs = .ok rows) (r : Row) (hr : r ∈ rows) :
    (this_fail r = true ↔ (r.vlc_bits = none ∨ ∃ t, r.total_bits = some t ∧ 40960 < t)) ∧
    (r.total_bits = some 40960 → this_fail r = false) ∧
    (r.total_bits = some 40961 → this_fail r = true) := by
  obtain ⟨h1, h2⟩ := collect_accounted hc r hr
  cases hv : r.vlc_bits with
  | none =>
    have ht := h1 hv
    refine ⟨?_, ?_, ?_⟩
    · simp [this_fail, hv, ht]
    · intro hb; rw [ht] at hb; exact absurd hb (by simp)
    · intro _; simp [this_fail, hv]
  | some n =>
    have ht := h2 n hv
    refine ⟨?_, ?_, ?_⟩
    · simp [this_fail, hv, ht]
    · intro hb
      rw [ht] at hb
      simp only [Option.some.injEq] at hb
      simp [this_fail, hv, ht, hb]
    · intro hb
      rw [ht] at hb
      simp only [Option.some.injEq] at hb
      simp [this_fail, hv, ht, hb]

/-- Witness for C3: a concrete run whose single record totals exactly
40960 bits and is marked passing. -/
theorem claim3_fail_flag_iff_witness : this_fail c3row = false :=
  (claim3_fail_flag_iff c3Env ["a"] [c3row] rfl c3row (by simp)).2.1 rfl

/-- C7 counterexample: The claim says a negative declared header bit
count is rejected; in fact a run whose submission declares `-5` header
bits completes, the artifact is accepted into bit accounting (total
`100 + (-5) = 95`), and the record passes. -/
theorem claim7_counterexample :
    collect c7Env ["a"] = .ok [c7row] ∧
    c7row.enc.n_header_bits = -5 ∧
    c7row.total_bits = some 95 ∧
    this_fail c7row = false :=
  ⟨rfl, rfl, rfl, rfl⟩

/-- C7 amended: The harness performs no verification of the declared
header bit count at all: whatever integer `header_bits` returned —
including a negative one — enters bit accounting unchecked, with
`total_bits = payload_bits + n_header_bits`. -/
theorem claim7_amended (env : Env) (imgs : List String) (rows : List Row)
    (hc : collect env imgs = .ok rows) (r : Row) (hr : r ∈ rows)
    (n : Nat) (hn : r.vlc_bits = some n) :
    r.total_bits = some ((n : ℤ) + r.enc.n_header_bits) :=
  (collect_accounted hc r hr).2 n hn

/-- Witness for C7 amended: the `-5`-header run accounts to `100 + (-5)`. -/
theorem claim7_amended_witness : c7row.total_bits = some ((100 : ℤ) + (-5)) :=
  claim7_amended c7Env ["a"] [c7row] rfl c7row (by simp) 100 rfl

/-- Propagation of an encode failure through the first loop of `collect`:
if every image before `img` encodes fine and the encode of `img` raises
`e`, the whole loop raises `e`. -/
theorem collectEncode_append_error (env : Env) (pre : List String) (img : String)
    (rest : List String) (l : List (String × List ℚ × EncodeOutput)) (e : PyError)
    (hpre : collectEncode env pre = .ok l)
    (henc : encode_process env (env.load_img (resolveImg img).1) = .error e) :
    collectEncode env (pre ++ img :: rest) = .error e := by
  induction pre generalizing l with
  | nil =>
    rw [List.nil_append]
    unfold collectEncode
    rw [henc]
  | cons p ps ih =>
    rw [List.cons_append]
    unfold collectEncode at hpre ⊢
    cases h1 : encode_process env (env.load_img (resolveImg p).1) with
    | error e' => rw [h1] at hpre; exact absurd hpre (by simp)
    | ok enc =>
      rw [h1] at hpre
      cases h2 : collectEncode env ps with
      | error e' => rw [h2] at hpre; exact absurd hpre (by simp)
      | ok tl =>
        rw [ih tl h2]

/-- C1 amended: If the `encode` of the submission raises for one image,
the evaluation pipeline does not catch it: the exception propagates out
of `collect`, so the run aborts with that error and no record is
returned for any image of the run (not even for images whose own encode
would succeed). -/
theorem claim1_encode_error_aborts (env : Env) (pre : List String) (img : String)
    (rest : List String) (l : List (String × List ℚ × EncodeOutput)) (e : PyError)
    (hpre : collectEncode env pre = .ok l)
    (henc : encode_process env (env.load_img (resolveImg img).1) = .error e) :
    collect env (pre ++ img :: rest) = .error e := by
  unfold collect
  rw [collectEncode_append_error env pre img rest l e hpre henc]

/-- Witness for C1 amended: in the two-image run below, the encode of `bad`
raises and `collect` aborts with that error. -/
theorem claim1_encode_error_aborts_witness :
    collect c1Env ([] ++ "bad" :: ["good"]) = .error (.runtimeError ("boom")) :=
  claim1_encode_error_aborts c1Env [] ("bad") ["good"] [] (.runtimeError ("boom")) rfl rfl

/-- C1 counterexample: A two-image run where only the encode of `bad`
raises yields no record at all — in particular the healthy image `good`
(whose encode succeeds, second conjunct) does not still produce a
record, as the claim would have it. -/
theorem claim1_counterexample :
    collect c1Env ["bad", "good"] = .error (.runtimeError ("boom")) ∧
    encode_process c1Env (c1Env.load_img (resolveImg ("good")).1) = .ok ⟨7, none, 0⟩ :=
  ⟨rfl, rfl⟩

/-- C2 code bug: A payload failing the external validity check is
captured by `collect` into a failed record with null bit counts (first
three conjuncts, as the claim states) — but `main` then crashes with a
`TypeError` while building the summary entry (the call of `int`
with `total_bits = None`), so the failure DOES escape the pipeline,
contrary to the claim. -/
theorem claim2_int_none_typeerror :
    collect c2Env ["imgA"] = .ok [c2row] ∧
    c2row.vlc_bits = none ∧
    c2row.total_bits = none ∧
    this_fail c2row = true ∧
    main c2Env ["imgA"] [] =
      .error (.typeError ("int argument must be a number, not NoneType")) :=
  ⟨rfl, rfl, rfl, rfl, rfl⟩

/-- Processing the required group folds the overall flag as the OR of the
accumulator with the per-row fail flags. -/
theorem processRows_true_fail (rows : List Row) (acc : Bool) (j : List ImgJson) (f : Bool)
    (h : processRows true rows acc = .ok (j, f)) : f = (acc || rows.any this_fail) := by
  induction rows generalizing acc j f with
  | nil =>
    unfold processRows at h
    cases h
    simp
  | cons r rest ih =>
    unfold processRows at h
    cases hp : pyInt r.total_bits with
    | error e => rw [hp] at h; exact absurd h (by simp)
    | ok t =>
      rw [hp] at h
      cases hq : processRows true rest (if true then acc || this_fail r else acc) with
      | error e => rw [hq] at h; exact absurd h (by simp)
      | ok pr =>
        obtain ⟨tail, final⟩ := pr
        rw [hq] at h
        simp only [Except.ok.injEq, Prod.mk.injEq] at h
        obtain ⟨-, hf⟩ := h
        rw [if_pos rfl] at hq
        rw [← hf, ih (acc || this_fail r) tail final hq]
        simp [Bool.or_assoc]

/-- Processing the extra group leaves the overall flag unchanged. -/
theorem processRows_false_fail (rows : List Row) (acc : Bool) (j : List ImgJson) (f : Bool)
    (h : processRows false rows acc = .ok (j, f)) : f = acc := by
  induction rows generalizing acc j f with
  | nil =>
    unfold processRows at h
    cases h
    rfl
  | cons r rest ih =>
    unfold processRows at h
    cases hp : pyInt r.total_bits with
    | error e => rw [hp] at h; exact absurd h (by simp)
    | ok t =>
      rw [hp] at h
      cases hq : processRows false rest (if false then acc || this_fail r else acc) with
      | error e => rw [hq] at h; exact absurd h (by simp)
      | ok pr =>
        obtain ⟨tail, final⟩ := pr
        rw [hq] at h
        simp only [Except.ok.injEq, Prod.mk.injEq] at h
        obtain ⟨-, hf⟩ := h
        rw [if_neg (by simp)] at hq
        rw [← hf]
        exact ih acc tail final hq

/-- C4: Whenever `main` completes, the overall `failed` verdict (both
in the summary and as the exit status) is exactly the OR of the per-image
fail flags over the required records alone; extra-image failures never
enter it, and any required-image failure sets it. -/
theorem claim4_verdict_required_only (env : Env) (req imgs : List String)
    (res : MainResult) (rows_req : List Row)
    (hreq : collect env req = .ok rows_req)
    (h : main env req imgs = .ok res) :
    res.summary.failed = rows_req.any this_fail ∧
    res.exit_failure = rows_req.any this_fail := by
  unfold main at h
  cases hl : load env.mod with
  | error e => rw [hl] at h; exact absurd h (by simp)
  | ok s =>
    rw [hl] at h
    simp only [] at h
    cases ho : env.out_dir_exists with
    | false => rw [ho] at h; simp at h
    | true =>
      rw [ho] at h
      rw [if_neg (by simp)] at h
      rw [hreq] at h
      simp only [] at h
      cases hx : collect env imgs with
      | error e => rw [hx] at h; simp at h
      | ok extra_data =>
        rw [hx] at h
        simp only [] at h
        cases hp1 : processRows true rows_req false with
        | error e => rw [hp1] at h; simp at h
        | ok pr1 =>
          obtain ⟨reqJson, fail₁⟩ := pr1
          rw [hp1] at h
          simp only [] at h
          cases hp2 : processRows false extra_data fail₁ with
          | error e => rw [hp2] at h; simp at h
          | ok pr2 =>
            obtain ⟨extraJson, fail⟩ := pr2
            rw [hp2] at h
            simp only [Except.ok.injEq] at h
            subst h
            have h1 := processRows_true_fail rows_req false reqJson fail₁ hp1
            have h2 := processRows_false_fail extra_data fail₁ extraJson fail hp2
            subst h2
            constructor <;> simp [h1]

/-- Witness for C4: required `imgA` passes while extra `imgB` is over
budget (its record fails, third conjunct), yet the overall verdict is
false. -/
theorem claim4_verdict_required_only_witness :
    c4res.summary.failed = List.any [c4rowA] this_fail ∧
    c4res.exit_failure = List.any [c4rowA] this_fail ∧
    this_fail c4rowB = true :=
  ⟨(claim4_verdict_required_only c4Env ["imgA"] ["imgB"] c4res [c4rowA] rfl rfl).1,
   (claim4_verdict_required_only c4Env ["imgA"] ["imgB"] c4res [c4rowA] rfl rfl).2,
   rfl⟩

/-- C6: A module missing any one of the three capabilities makes the
whole run fail with a distinct `RuntimeError` naming that capability —
and it does so uniformly in the codec behaviour, the image loader and the
image lists (the conclusion holds for *every* `c`, `v`, `li`, `req`,
`imgs`), i.e. before any image is loaded or evaluated. -/
theorem claim6_missing_capability (m : PyModule) (c : Codec)
    (v : Nat → Except PyError Nat) (li : String → List ℚ) (od : Bool)
    (req imgs : List String) :
    (m.header_bits = none →
      main ⟨m, c, v, li, od⟩ req imgs =
        .error (.runtimeError ("No `header_bits` function found"))) ∧
    (m.header_bits ≠ none → m.encode = none →
      main ⟨m, c, v, li, od⟩ req imgs =
        .error (.runtimeError ("No `encode` function found"))) ∧
    (m.header_bits ≠ none → m.encode ≠ none → m.decode = none →
      main ⟨m, c, v, li, od⟩ req imgs =
        .error (.runtimeError ("No `decode` function found"))) := by
  obtain ⟨hb, enc, dec⟩ := m
  refine ⟨?_, ?_, ?_⟩
  · intro h1
    simp only at h1
    subst h1
    simp [main, load]
  · intro h1 h2
    simp only at h1 h2
    subst h2
    cases hb with
    | none => exact absurd rfl h1
    | some b => simp [main, load]
  · intro h1 h2 h3
    simp only at h1 h2 h3
    subst h3
    cases hb with
    | none => exact absurd rfl h1
    | some b =>
      cases enc with
      | none => exact absurd rfl h2
      | some b' => simp [main, load]

/-- Witness for C6: a module with `encode` absent fails the run with the
`encode`-naming error. -/
theorem claim6_missing_capability_witness :
    main ⟨⟨some (.callable 0), none, some (.callable 2)⟩, anyCodec,
          fun _ => .ok 0, fun _ => [], true⟩ ["r"] ["x"] =
      .error (.runtimeError ("No `encode` function found")) :=
  (claim6_missing_capability ⟨some (.callable 0), none, some (.callable 2)⟩ anyCodec
    (fun _ => .ok 0) (fun _ => []) true ["r"] ["x"]).2.1 (by simp) rfl

/-- C9: `load` succeeds exactly when the three attributes are present
by name — nothing about them being callable is checked — and on success
it returns precisely those attribute values as the capabilities. -/
theorem claim9_presence_only (m : PyModule) :
    ((∃ s, load m = .ok s) ↔
      (m.header_bits.isSome ∧ m.encode.isSome ∧ m.decode.isSome)) ∧
    (∀ h e d, m.header_bits = some h → m.encode = some e → m.decode = some d →
      load m = .ok ⟨m, h, e, d⟩) := by
  obtain ⟨hb, enc, dec⟩ := m
  constructor
  · cases hb <;> cases enc <;> cases dec <;> simp [load]
  · intro h e d h1 h2 h3
    simp only at h1 h2 h3
    subst h1; subst h2; subst h3
    rfl

/-- Witness for C9: a module whose `encode` attribute is a non-callable
value still loads, and that value is returned as the capability. -/
theorem claim9_presence_only_witness :
    load ⟨some (.callable 0), some (.notCallable 1), some (.callable 2)⟩ =
      .ok ⟨⟨some (.callable 0), some (.notCallable 1), some (.callable 2)⟩,
           .callable 0, .notCallable 1, .callable 2⟩ :=
  (claim9_presence_only ⟨some (.callable 0), some (.notCallable 1), some (.callable 2)⟩).2
    (.callable 0) (.notCallable 1) (.callable 2) rfl rfl rfl

/-- C10: In the bit-accounting step, only a `ValueError` from the
external `vlctest` is treated as the malformed-payload condition (first
part: the row is recorded with null bit counts); an exception of any
other type is not caught and propagates out of the second loop of
`collect`, aborting the run (second part). -/
theorem claim10_only_valueerror_caught (env : Env) (name : String) (X : List ℚ)
    (enc : EncodeOutput) (Z : List ℚ) (hd : decode_process env enc = .ok Z) :
    (∀ m, env.vlctest enc.vlc = .error (.valueError m) →
      finishRow env name X enc =
        .ok ⟨name, X, enc, Z, clipMatrix Z, npStdSq (diffs X (clipMatrix Z)),
             none, none, some (.valueError m)⟩) ∧
    (∀ e, env.vlctest enc.vlc = .error e → isValueError e = false →
      finishRow env name X enc = .error e ∧
      ∀ rest, collectFinish env ((name, X, enc) :: rest) = .error e) := by
  constructor
  · intro m hv
    unfold finishRow
    rw [hd, hv]
  · intro e hv he
    have hf : finishRow env name X enc = .error e := by
      unfold finishRow
      rw [hd, hv]
      cases e with
      | valueError m => exact absurd he (by simp [isValueError])
      | typeError m => rfl
      | runtimeError m => rfl
      | systemExit m => rfl
      | otherError m => rfl
    refine ⟨hf, fun rest => ?_⟩
    unfold collectFinish
    rw [hf]

/-- Witness for C10: a `TypeError` from `vlctest` escapes `finishRow` and
the whole second loop. -/
theorem claim10_only_valueerror_caught_witness :
    finishRow c10Env ("a") [0] ⟨4, none, 0⟩ = .error (.typeError ("weird")) ∧
    collectFinish c10Env [("a", [0], ⟨4, none, 0⟩)] = .error (.typeError ("weird")) :=
  ⟨((claim10_only_valueerror_caught c10Env ("a") [0] ⟨4, none, 0⟩ [0] rfl).2
      (.typeError ("weird")) rfl rfl).1,
   ((claim10_only_valueerror_caught c10Env ("a") [0] ⟨4, none, 0⟩ [0] rfl).2
      (.typeError ("weird")) rfl rfl).2 []⟩

/-- C8: Image identifier resolution: an identifier written as the
reserved scheme followed by a core resolves to the bundled sample bank,
and its display name is the core with the prefix gone and the sample-file
suffix stripped; a plain identifier without the `.mat` extension gets the
extension appended to form the file path; one already carrying `.mat` is
used verbatim as the file path. -/
theorem claim8_identifier_resolution (s : String) :
    (∀ core : String, s = cuedScheme ++ core →
      resolveImg s = (imagesDir ++ "/" ++ core, stripSuf core matExt)) ∧
    (pyStartsWith s cuedScheme = false → pyEndsWith s matExt = false →
      resolveImg s = (s ++ matExt, s)) ∧
    (pyStartsWith s cuedScheme = false → pyEndsWith s matExt = true →
      resolveImg s = (s, s)) := by
  refine ⟨?_, ?_, ?_⟩
  · intro core h
    subst h
    have h1 : pyStartsWith (cuedScheme ++ core) cuedScheme = true := by
      unfold pyStartsWith
      rw [String.data_append]
      exact List.isPrefixOf_iff_prefix.mpr (List.prefix_append _ _)
    have h2 : stripPre (cuedScheme ++ core) cuedScheme = core := by
      unfold stripPre
      rw [String.data_append, List.drop_left]
    unfold resolveImg
    rw [if_pos h1, h2]
  · intro h1 h2
    unfold resolveImg
    rw [if_neg (by rw [h1]; exact Bool.false_ne_true), if_pos (by rw [h2]; simp)]
  · intro h1 h2
    unfold resolveImg
    rw [if_neg (by rw [h1]; exact Bool.false_ne_true), if_neg (by rw [h2]; simp)]

/-- Witness for C8: the three branches on concrete identifiers. -/
theorem claim8_identifier_resolution_witness :
    resolveImg ("cued-sf2://lighthouse.mat") =
      (imagesDir ++ "/" ++ "lighthouse.mat", stripSuf ("lighthouse.mat") matExt) ∧
    resolveImg ("bridge") = ("bridge" ++ matExt, "bridge") ∧
    resolveImg ("flamingo.mat") = ("flamingo.mat", "flamingo.mat") :=
  ⟨(claim8_identifier_resolution ("cued-sf2://lighthouse.mat")).1 ("lighthouse.mat") rfl,
   (claim8_identifier_resolution ("bridge")).2.1 rfl rfl,
   (claim8_identifier_resolution ("flamingo.mat")).2.2 rfl rfl⟩

/-- Every clipped pixel lies in `[0, 255]`. -/
theorem clipPixel_bounds (z : ℚ) : 0 ≤ clipPixel z ∧ clipPixel z ≤ 255 := by
  unfold clipPixel
  have hw : (0 : ℚ) ≤ min 255 (max 0 z) := le_min (by norm_num) (le_max_left 0 z)
  constructor
  · have : (0 : ℤ) ≤ ⌊min 255 (max 0 z)⌋ := Int.le_floor.mpr (by exact_mod_cast hw)
    exact_mod_cast this
  · have h1 : ((⌊min 255 (max 0 z)⌋ : ℤ) : ℚ) ≤ min 255 (max 0 z) := Int.floor_le _
    exact h1.trans (min_le_left _ _)

/-- C5 amended: The pipeline clamps the decoded matrix elementwise
into `[0, 255]` (first part), and the recorded error statistic is the
*standard deviation* of the pixel differences: it equals the
root-mean-square of the *mean-centred* differences, not of the raw
differences. -/
theorem claim5_std_not_rms (X Z : List ℚ) :
    (∀ q ∈ clipMatrix Z, 0 ≤ q ∧ q ≤ 255) ∧
    npStd (diffs X (clipMatrix Z)) =
      specRms ((diffs X (clipMatrix Z)).map
        (fun x => x - listMean (diffs X (clipMatrix Z)))) := by
  constructor
  · intro q hq
    obtain ⟨z, -, rfl⟩ := List.mem_map.mp hq
    exact clipPixel_bounds z
  · unfold npStd specRms npStdSq
    rw [List.map_map]
    rfl

/-- Witness for C5 amended: applied to the one-pixel matrices `[0]`,
`[300]` (the decoded value 300 is clamped into range). -/
theorem claim5_std_not_rms_witness :
    (0 ≤ clipPixel 300 ∧ clipPixel 300 ≤ 255) ∧
    npStd (diffs [0] (clipMatrix [300])) =
      specRms ((diffs [0] (clipMatrix [300])).map
        (fun x => x - listMean (diffs [0] (clipMatrix [300])))) :=
  ⟨(claim5_std_not_rms [0] [300]).1 (clipPixel 300) (by simp [clipMatrix]),
   (claim5_std_not_rms [0] [300]).2⟩

/-- C5 counterexample: A concrete run (one pixel, original `0`,
decoded `2`): the recorded error is `np.std([-2]) = 0`, while the
root-mean-square of the differences is `2` — so the recorded value is
*not* the RMS of the pixel differences. -/
theorem claim5_counterexample :
    collect c5Env ["a"] = .ok [c5row] ∧
    rowRmsVal c5row = 0 ∧
    specRms (diffs c5row.X c5row.Z_actual) = 2 ∧
    rowRmsVal c5row ≠ specRms (diffs c5row.X c5row.Z_actual) := by
  have hd : diffs [0] (clipMatrix [2]) = [-2] := by
    have hc : clipMatrix [2] = [2] := rfl
    rw [hc]
    norm_num [diffs]
  have h0 : rowRmsVal c5row = 0 := by
    have hs : npStdSq (diffs [0] (clipMatrix [2])) = 0 := by
      rw [hd]
      norm_num [npStdSq, listMean]
    show Real.sqrt ((npStdSq (diffs [0] (clipMatrix [2])) : ℚ) : ℝ) = 0
    rw [hs]
    simp
  have h2 : specRms (diffs c5row.X c5row.Z_actual) = 2 := by
    show specRms (diffs [0] (clipMatrix [2])) = 2
    unfold specRms
    rw [hd]
    have hm : listMean ([(-2 : ℚ)].map (fun x => x ^ 2)) = 4 := by
      norm_num [listMean]
    rw [hm]
    rw [show ((4 : ℚ) : ℝ) = (2 : ℝ) ^ 2 by norm_num]
    exact Real.sqrt_sq (by norm_num)
  exact ⟨rfl, h0, h2, by rw [h0, h2]; norm_num⟩

end SF2
